import Mathlib

set_option autoImplicit false

/-!
Shallow embedding of the alert component
(src/homeassistant/components/alert/__init__.py).

The component is a per-alert state machine driven by three kinds of
events: watched-entity state changes, timer fires, and the
acknowledge / un-acknowledge / toggle service operations.  Durations
are minutes, modelled as rationals.  Each operation returns, besides
the new state, the list of scripts it actually executes; this list is
always empty, because `_execute_script` is an async function and both
of its call sites (line 248 for the triggered script, line 255 for
the done script) lack `await`: the call merely creates a coroutine
object that is immediately discarded, so `script.async_run` never
executes.  The synchronous effects around those calls (flag writes,
cursor updates, timer scheduling and cancellation) do happen and are
modelled faithfully.  The scheduled timer of the external timer
service is modelled by the `pending` field (the absolute fire time,
or `none`), and the fact that the `_cancel` attribute is not `None`
by `has_cancel`.  The field `ghost_fired` is ghost instrumentation
(not present in the source): it records whether the triggered-script
call site (line 248) has been reached since the last entry into the
triggered state, and no transition reads it.
-/

/-- Actual executions of the triggered script or the done script by
the alert.  No transition ever emits one of these events: the two
calls of the async `_execute_script` (line 248 for the triggered
script, line 255 for the done script) are made without `await`, so
each call creates and discards a coroutine and the script body never
runs. -/
inductive AlertEvent where
  | invokeTriggered : AlertEvent
  | invokeDone : AlertEvent
deriving DecidableEq

/-- Immutable per-alert configuration, as stored by `Alert.__init__`:
the match state (`_alert_state`), the repeat delays in minutes
(`_delay`), `_skip_first` and `_can_ack`. -/
structure AlertConfig where
  alert_state : String
  delays : List ℚ
  skip_first : Bool
  can_ack : Bool

/-- Mutable runtime state of one alert: `_triggered`, `_ack`,
`_next_delay`, `_execute_done_script`, whether `_cancel` is not None
(`has_cancel`), the scheduled fire time held by the timer service
(`pending`), and the ghost flag `ghost_fired`. -/
structure AlertState where
  triggered : Bool
  ack : Bool
  next_delay : Nat
  execute_done_script : Bool
  has_cancel : Bool
  pending : Option ℚ
  ghost_fired : Bool
deriving DecidableEq

/-- Initial runtime state set by `Alert.__init__`. -/
def Alert.initState : AlertState :=
  { triggered := false, ack := false, next_delay := 0,
    execute_done_script := false, has_cancel := false,
    pending := none, ghost_fired := false }

/-- Embedding of `Alert._schedule_trigger`: read the delay at the
cursor, schedule the trigger at `now + delay` (storing the cancel
handle), then clamp-advance the cursor. -/
def Alert.schedule_trigger (cfg : AlertConfig) (now : ℚ) (s : AlertState) :
    AlertState :=
  let delay := cfg.delays.getD s.next_delay 0
  { s with pending := some (now + delay), has_cancel := true,
           next_delay := min (s.next_delay + 1) (cfg.delays.length - 1) }

/-- Embedding of `Alert._trigger`: a no-op when not triggered;
otherwise, when not acknowledged, set `_execute_done_script` and call
`_execute_script` on the triggered script — the call at line 248 is
not awaited, so the script is never executed and no event is emitted —
and in either case schedule the next trigger. -/
def Alert.trigger (cfg : AlertConfig) (now : ℚ) (s : AlertState) :
    AlertState × List AlertEvent :=
  if s.triggered = false then (s, [])
  else
    let r :=
      if s.ack = false then
        ({ s with execute_done_script := true, ghost_fired := true },
         ([] : List AlertEvent))
      else (s, [])
    (Alert.schedule_trigger cfg now r.1, r.2)

/-- Embedding of `Alert.begin_alerting`: clear `_ack`, set
`_triggered`, reset the cursor, then either fire immediately
(`_trigger`) or only schedule, depending on `_skip_first`.  Entering
the triggered state resets the ghost flag. -/
def Alert.begin_alerting (cfg : AlertConfig) (now : ℚ) (s : AlertState) :
    AlertState × List AlertEvent :=
  let s1 := { s with ack := false, triggered := true, next_delay := 0,
                     ghost_fired := false }
  if cfg.skip_first = false then Alert.trigger cfg now s1
  else (Alert.schedule_trigger cfg now s1, [])

/-- Embedding of `Alert.end_alerting`: call the cancel handle (the
scheduled fire is removed; the `_cancel` attribute itself keeps the
stale handle), clear `_ack` and `_triggered`, then run `_done` when
`_execute_done_script` is set.  `_done` clears that flag and calls
`_execute_script` on the done script, but the call at line 255 is not
awaited, so the done script is never executed and no event is
emitted. -/
def Alert.end_alerting (s : AlertState) : AlertState × List AlertEvent :=
  let s1 := { s with pending := none, ack := false, triggered := false }
  if s1.execute_done_script = true then
    ({ s1 with execute_done_script := false }, ([] : List AlertEvent))
  else (s1, [])

/-- Embedding of `Alert.watched_entity_change`: begin alerting when
the new state equals the match state and the alert is not triggered;
end alerting when it differs and the alert is triggered. -/
def Alert.watched_entity_change (cfg : AlertConfig) (now : ℚ)
    (to_state : String) (s : AlertState) : AlertState × List AlertEvent :=
  let r1 :=
    if to_state = cfg.alert_state ∧ s.triggered = false then
      Alert.begin_alerting cfg now s
    else (s, [])
  let r2 :=
    if to_state ≠ cfg.alert_state ∧ r1.1.triggered = true then
      Alert.end_alerting r1.1
    else (r1.1, [])
  (r2.1, r1.2 ++ r2.2)

/-- Embedding of `Alert.async_turn_on` (un-acknowledge): clear `_ack`. -/
def Alert.async_turn_on (s : AlertState) : AlertState :=
  { s with ack := false }

/-- Embedding of `Alert.async_turn_off` (acknowledge): set `_ack`. -/
def Alert.async_turn_off (s : AlertState) : AlertState :=
  { s with ack := true }

/-- Embedding of `Alert.async_toggle`: un-acknowledge when
acknowledged, otherwise acknowledge. -/
def Alert.async_toggle (s : AlertState) : AlertState :=
  if s.ack = true then Alert.async_turn_on s else Alert.async_turn_off s

/-- Embedding of the `state` property: "off" when triggered and
acknowledged, "on" when triggered and not acknowledged, "idle"
otherwise (the values of STATE_OFF, STATE_ON, STATE_IDLE). -/
def Alert.stateStr (s : AlertState) : String :=
  if s.triggered = true then
    if s.ack = true then "off" else "on"
  else "idle"

/-- The `state` property as a function of the two flags only. -/
def Alert.stateOfFlags (t a : Bool) : String :=
  if t then (if a then "off" else "on") else "idle"

/-- Embedding of the `hidden` property: hidden when the alert cannot
be acknowledged or is not triggered. -/
def Alert.hidden (cfg : AlertConfig) (s : AlertState) : Bool :=
  !cfg.can_ack || !s.triggered

/-- External events driving one alert: a watched-entity update with a
new state value, a fire of the scheduled timer, and the three service
operations. -/
inductive AlertOp where
  | update : String → AlertOp
  | fire : AlertOp
  | turnOn : AlertOp
  | turnOff : AlertOp
  | toggle : AlertOp
deriving DecidableEq

/-- One event step of the alert.  A timer fire is delivered only when
a timer is pending; firing consumes the pending timer and runs
`_trigger`. -/
def Alert.step (cfg : AlertConfig) (now : ℚ) :
    AlertOp → AlertState → AlertState × List AlertEvent
  | AlertOp.update t, s => Alert.watched_entity_change cfg now t s
  | AlertOp.fire, s =>
      match s.pending with
      | none => (s, [])
      | some _ => Alert.trigger cfg now { s with pending := none }
  | AlertOp.turnOn, s => (Alert.async_turn_on s, [])
  | AlertOp.turnOff, s => (Alert.async_turn_off s, [])
  | AlertOp.toggle, s => (Alert.async_toggle s, [])

/-- Runtime states reachable from the initial state under any
sequence of events at any times. -/
inductive Alert.Reachable (cfg : AlertConfig) : AlertState → Prop where
  | init : Alert.Reachable cfg Alert.initState
  | step {s : AlertState} (now : ℚ) (op : AlertOp) :
      Alert.Reachable cfg s → Alert.Reachable cfg (Alert.step cfg now op s).1

/-- Whether an event is a watched-state update or a timer fire (as
opposed to one of the three service operations). -/
def AlertOp.isMonitor : AlertOp → Bool
  | AlertOp.update _ => true
  | AlertOp.fire => true
  | _ => false

/-- Runtime states reachable using only watched-state updates and
timer fires. -/
inductive Alert.ReachableMonitor (cfg : AlertConfig) : AlertState → Prop where
  | init : Alert.ReachableMonitor cfg Alert.initState
  | step {s : AlertState} (now : ℚ) (op : AlertOp) :
      op.isMonitor = true → Alert.ReachableMonitor cfg s →
      Alert.ReachableMonitor cfg (Alert.step cfg now op s).1

/-- Core invariant of the runtime state: no pending timer while not
triggered, a cancel handle while triggered, and the done-script flag
set exactly when the triggered-script call site has been reached
since the last entry into the triggered state. -/
def Alert.Inv (s : AlertState) : Prop :=
  (s.triggered = false → s.pending = none) ∧
  (s.triggered = true → s.has_cancel = true) ∧
  s.execute_done_script = (s.triggered && s.ghost_fired)

/-- Invariant of states reachable by watched-state updates and timer
fires only: the ack flag is clear and no timer is pending whenever the
alert is not triggered. -/
def Alert.InvMon (s : AlertState) : Prop :=
  s.triggered = false → s.ack = false ∧ s.pending = none

/-- Number of enter-triggered transitions along a sequence of
watched-state updates: steps whose pre-state is untriggered and whose
post-state is triggered. -/
def Alert.countEnters (cfg : AlertConfig) (now : ℚ) :
    List String → AlertState → Nat
  | [], _ => 0
  | t :: ts, s =>
      (if s.triggered = false ∧
          (Alert.watched_entity_change cfg now t s).1.triggered = true
       then 1 else 0) +
        Alert.countEnters cfg now ts (Alert.watched_entity_change cfg now t s).1

/-- Number of updates equal to the match state received while not
already triggered, along the same sequence. -/
def Alert.countMatchingIdle (cfg : AlertConfig) (now : ℚ) :
    List String → AlertState → Nat
  | [], _ => 0
  | t :: ts, s =>
      (if t = cfg.alert_state ∧ s.triggered = false then 1 else 0) +
        Alert.countMatchingIdle cfg now ts
          (Alert.watched_entity_change cfg now t s).1

/-- Validated configuration entry for one alert, as accepted by
ALERT_SCHEMA, with defaults filled in.  The optional triggered/done
script configurations are not represented because `async_setup` fails
before reading them. -/
structure AlertYaml where
  name : String
  entity_id : String
  state : String
  repeat_delays : List ℚ
  can_acknowledge : Bool
  skip_first : Bool

set_option linter.unusedVariables false in
/-- Embedding of the per-entry body of `async_setup` (lines 66 to 92).
The reads `cfg.get(CONF_NAME)` through `cfg.get(CONF_CAN_ACK)`
succeed, but the next expression, `cfg.get[CONF_TRIGGERED]`,
subscripts the bound method `dict.get` instead of calling it, which
raises TypeError in Python before `Alert(...)` is constructed. -/
def Alert.setup_entry (cfg : AlertYaml) : Except String AlertConfig :=
  Except.error "TypeError: method object is not subscriptable"

/-- Embedding of `async_setup` over the configured alert entries: each
entry is processed in turn and a Python exception aborts the whole
setup. -/
def Alert.async_setup : List AlertYaml → Except String (List AlertConfig)
  | [] => Except.ok []
  | e :: es => do
      let a ← Alert.setup_entry e
      let rest ← Alert.async_setup es
      Except.ok (a :: rest)

/-- A concrete schema-accepted configuration entry. -/
def exampleYaml : AlertYaml :=
  { name := "Garage door open", entity_id := "input_boolean.garage",
    state := "on", repeat_delays := [5], can_acknowledge := true,
    skip_first := false }

/-- Concrete configuration of the first worked example of the spec:
match state "on", repeat delays one and five minutes, no skip. -/
def cfgA : AlertConfig :=
  { alert_state := "on", delays := [1, 5], skip_first := false,
    can_ack := true }

/-- Concrete configuration of the second worked example: one repeat
delay of ten minutes, skipping the first invocation. -/
def cfgSkip : AlertConfig :=
  { alert_state := "on", delays := [10], skip_first := true,
    can_ack := true }

def traceA1 : AlertState × List AlertEvent :=
  Alert.step cfgA 0 (AlertOp.update "on") Alert.initState

def traceA2 : AlertState × List AlertEvent :=
  Alert.step cfgA 1 AlertOp.fire traceA1.1

def traceA3 : AlertState × List AlertEvent :=
  Alert.step cfgA 6 AlertOp.fire traceA2.1

def traceA4 : AlertState × List AlertEvent :=
  Alert.step cfgA 11 AlertOp.fire traceA3.1

def traceAEnd : AlertState × List AlertEvent :=
  Alert.step cfgA 2 (AlertOp.update "off") traceA1.1

def traceB1 : AlertState × List AlertEvent :=
  Alert.step cfgSkip 0 (AlertOp.update "on") Alert.initState

def traceB2 : AlertState × List AlertEvent :=
  Alert.step cfgSkip 10 AlertOp.fire traceB1.1

def traceB3 : AlertState × List AlertEvent :=
  Alert.step cfgSkip 20 AlertOp.fire traceB2.1

/-- Characterisation of `Alert._trigger` on a triggered state. -/
theorem Alert.trigger_triggered (cfg : AlertConfig) (now : ℚ) (s : AlertState)
    (ht : s.triggered = true) :
    Alert.trigger cfg now s =
      ({ triggered := s.triggered, ack := s.ack,
         next_delay := min (s.next_delay + 1) (cfg.delays.length - 1),
         execute_done_script := s.execute_done_script || !s.ack,
         has_cancel := true,
         pending := some (now + cfg.delays.getD s.next_delay 0),
         ghost_fired := s.ghost_fired || !s.ack },
       ([] : List AlertEvent)) := by
  obtain ⟨tr, ak, nd, ed, hc, pd, gf⟩ := s
  cases ak <;> simp_all [Alert.trigger, Alert.schedule_trigger]

/-- Characterisation of `Alert._trigger` on an untriggered state: a
no-op that changes nothing, runs nothing and schedules nothing. -/
theorem Alert.trigger_idle (cfg : AlertConfig) (now : ℚ) (s : AlertState)
    (ht : s.triggered = false) : Alert.trigger cfg now s = (s, []) := by
  simp [Alert.trigger, ht]

/-- Characterisation of `Alert.begin_alerting`. -/
theorem Alert.begin_alerting_eq (cfg : AlertConfig) (now : ℚ) (s : AlertState) :
    Alert.begin_alerting cfg now s =
      ({ triggered := true, ack := false,
         next_delay := min 1 (cfg.delays.length - 1),
         execute_done_script :=
           if cfg.skip_first then s.execute_done_script else true,
         has_cancel := true,
         pending := some (now + cfg.delays.getD 0 0),
         ghost_fired := if cfg.skip_first then false else true },
       ([] : List AlertEvent)) := by
  cases hsf : cfg.skip_first <;>
    simp [Alert.begin_alerting, Alert.trigger, Alert.schedule_trigger, hsf]

/-- Characterisation of `Alert.end_alerting`. -/
theorem Alert.end_alerting_eq (s : AlertState) :
    Alert.end_alerting s =
      ({ s with pending := none, ack := false, triggered := false,
                execute_done_script := false },
       ([] : List AlertEvent)) := by
  cases hed : s.execute_done_script <;> simp [Alert.end_alerting, hed]

/-- No timer fire ever executes a script: the `_execute_script` call
at line 248 is not awaited. -/
theorem Alert.trigger_events_nil (cfg : AlertConfig) (now : ℚ)
    (s : AlertState) : (Alert.trigger cfg now s).2 = [] := by
  by_cases ht : s.triggered = true
  · rw [Alert.trigger_triggered cfg now s ht]
  · rw [Alert.trigger_idle cfg now s (by simpa using ht)]

/-- No entry into the triggered state ever executes a script. -/
theorem Alert.begin_alerting_events_nil (cfg : AlertConfig) (now : ℚ)
    (s : AlertState) : (Alert.begin_alerting cfg now s).2 = [] := by
  rw [Alert.begin_alerting_eq]

/-- No exit from the triggered state ever executes the done script:
the `_execute_script` call at line 255 is not awaited. -/
theorem Alert.end_alerting_events_nil (s : AlertState) :
    (Alert.end_alerting s).2 = [] := by
  rw [Alert.end_alerting_eq]

/-- A matching update while not triggered runs `begin_alerting`. -/
theorem Alert.watched_match_idle (cfg : AlertConfig) (now : ℚ) (t : String)
    (s : AlertState) (hm : t = cfg.alert_state) (ht : s.triggered = false) :
    Alert.watched_entity_change cfg now t s = Alert.begin_alerting cfg now s := by
  simp [Alert.watched_entity_change, hm, ht]

/-- A non-matching update while triggered runs `end_alerting`. -/
theorem Alert.watched_nomatch_triggered (cfg : AlertConfig) (now : ℚ)
    (t : String) (s : AlertState) (hm : t ≠ cfg.alert_state)
    (ht : s.triggered = true) :
    Alert.watched_entity_change cfg now t s = Alert.end_alerting s := by
  simp [Alert.watched_entity_change, hm, ht]

/-- A matching update while already triggered changes nothing. -/
theorem Alert.watched_match_triggered (cfg : AlertConfig) (now : ℚ)
    (t : String) (s : AlertState) (hm : t = cfg.alert_state)
    (ht : s.triggered = true) :
    Alert.watched_entity_change cfg now t s = (s, []) := by
  simp [Alert.watched_entity_change, hm, ht]

/-- A non-matching update while not triggered changes nothing. -/
theorem Alert.watched_nomatch_idle (cfg : AlertConfig) (now : ℚ)
    (t : String) (s : AlertState) (hm : t ≠ cfg.alert_state)
    (ht : s.triggered = false) :
    Alert.watched_entity_change cfg now t s = (s, []) := by
  simp [Alert.watched_entity_change, hm, ht]

theorem Alert.step_update (cfg : AlertConfig) (now : ℚ) (t : String)
    (s : AlertState) :
    Alert.step cfg now (AlertOp.update t) s =
      Alert.watched_entity_change cfg now t s := rfl

theorem Alert.step_fire_none (cfg : AlertConfig) (now : ℚ) (s : AlertState)
    (h : s.pending = none) : Alert.step cfg now AlertOp.fire s = (s, []) := by
  simp [Alert.step, h]

theorem Alert.step_fire_some (cfg : AlertConfig) (now : ℚ) (s : AlertState)
    (q : ℚ) (h : s.pending = some q) :
    Alert.step cfg now AlertOp.fire s =
      Alert.trigger cfg now { s with pending := none } := by
  simp [Alert.step, h]

theorem Alert.inv_init : Alert.Inv Alert.initState := by
  simp [Alert.Inv, Alert.initState]

theorem Alert.inv_step (cfg : AlertConfig) (now : ℚ) (op : AlertOp)
    (s : AlertState) (h : Alert.Inv s) : Alert.Inv (Alert.step cfg now op s).1 := by
  obtain ⟨h1, h2, h3⟩ := h
  cases op with
  | update t =>
      rw [Alert.step_update]
      by_cases hm : t = cfg.alert_state <;> by_cases ht : s.triggered = true
      · rw [Alert.watched_match_triggered cfg now t s hm ht]
        exact ⟨h1, h2, h3⟩
      · have ht2 : s.triggered = false := by simpa using ht
        rw [Alert.watched_match_idle cfg now t s hm ht2,
            Alert.begin_alerting_eq]
        have hed : s.execute_done_script = false := by rw [h3, ht2]; simp
        refine ⟨by simp, by simp, ?_⟩
        cases cfg.skip_first <;> simp [hed]
      · rw [Alert.watched_nomatch_triggered cfg now t s hm ht,
            Alert.end_alerting_eq]
        exact ⟨fun _ => rfl, by simp, by simp⟩
      · have ht2 : s.triggered = false := by simpa using ht
        rw [Alert.watched_nomatch_idle cfg now t s hm ht2]
        exact ⟨h1, h2, h3⟩
  | fire =>
      cases hp : s.pending with
      | none => rw [Alert.step_fire_none cfg now s hp]; exact ⟨h1, h2, h3⟩
      | some q =>
          rw [Alert.step_fire_some cfg now s q hp]
          by_cases ht : s.triggered = true
          · rw [Alert.trigger_triggered cfg now _ (by simpa using ht)]
            refine ⟨by simp [ht], by simp, ?_⟩
            simp [h3, ht]
          · have ht2 : s.triggered = false := by simpa using ht
            rw [Alert.trigger_idle cfg now _ (by simpa using ht2)]
            exact ⟨fun _ => rfl, by simp [ht2], by simpa using h3⟩
  | turnOn => exact ⟨h1, h2, h3⟩
  | turnOff => exact ⟨h1, h2, h3⟩
  | toggle =>
      by_cases hak : s.ack = true <;>
        simp only [Alert.step, Alert.async_toggle, Alert.async_turn_on,
          Alert.async_turn_off, hak, if_true, if_false] <;>
        exact ⟨h1, h2, h3⟩

theorem Alert.reachable_inv (cfg : AlertConfig) (s : AlertState)
    (h : Alert.Reachable cfg s) : Alert.Inv s := by
  induction h with
  | init => exact Alert.inv_init
  | step now op _ ih => exact Alert.inv_step cfg now op _ ih

theorem Alert.invMon_step (cfg : AlertConfig) (now : ℚ) (op : AlertOp)
    (s : AlertState) (hop : op.isMonitor = true) (h : Alert.InvMon s) :
    Alert.InvMon (Alert.step cfg now op s).1 := by
  simp only [Alert.InvMon] at h ⊢
  cases op with
  | update t =>
      rw [Alert.step_update]
      by_cases hm : t = cfg.alert_state <;> by_cases ht : s.triggered = true
      · rw [Alert.watched_match_triggered cfg now t s hm ht]
        exact h
      · have ht2 : s.triggered = false := by simpa using ht
        rw [Alert.watched_match_idle cfg now t s hm ht2,
            Alert.begin_alerting_eq]
        intro hcontra
        simp at hcontra
      · rw [Alert.watched_nomatch_triggered cfg now t s hm ht,
            Alert.end_alerting_eq]
        intro _
        exact ⟨rfl, rfl⟩
      · have ht2 : s.triggered = false := by simpa using ht
        rw [Alert.watched_nomatch_idle cfg now t s hm ht2]
        exact h
  | fire =>
      cases hp : s.pending with
      | none => rw [Alert.step_fire_none cfg now s hp]; exact h
      | some q =>
          rw [Alert.step_fire_some cfg now s q hp]
          by_cases ht : s.triggered = true
          · rw [Alert.trigger_triggered cfg now _ (by simpa using ht)]
            intro hcontra
            rw [ht] at hcontra
            exact absurd hcontra (by simp)
          · have ht2 : s.triggered = false := by simpa using ht
            rw [Alert.trigger_idle cfg now _ (by simpa using ht2)]
            intro _
            exact ⟨(h ht2).1, rfl⟩
  | turnOn => exact absurd hop (by simp [AlertOp.isMonitor])
  | turnOff => exact absurd hop (by simp [AlertOp.isMonitor])
  | toggle => exact absurd hop (by simp [AlertOp.isMonitor])

theorem Alert.reachableMonitor_invMon (cfg : AlertConfig) (s : AlertState)
    (h : Alert.ReachableMonitor cfg s) : Alert.InvMon s := by
  induction h with
  | init => intro _; simp [Alert.initState]
  | step now op hop _ ih => exact Alert.invMon_step cfg now op _ hop ih

/-- The triggered flag after a watched-state update records exactly
whether the update matched the alert state. -/
theorem Alert.watched_triggered_eq (cfg : AlertConfig) (now : ℚ) (t : String)
    (s : AlertState) :
    (Alert.watched_entity_change cfg now t s).1.triggered =
      decide (t = cfg.alert_state) := by
  by_cases hm : t = cfg.alert_state <;> by_cases ht : s.triggered = true
  · rw [Alert.watched_match_triggered cfg now t s hm ht]
    simp [hm, ht]
  · have ht2 : s.triggered = false := by simpa using ht
    rw [Alert.watched_match_idle cfg now t s hm ht2, Alert.begin_alerting_eq]
    simp [hm]
  · rw [Alert.watched_nomatch_triggered cfg now t s hm ht,
        Alert.end_alerting_eq]
    simp [hm]
  · have ht2 : s.triggered = false := by simpa using ht
    rw [Alert.watched_nomatch_idle cfg now t s hm ht2]
    simp [hm, ht2]

theorem Alert.countEnters_eq_countMatchingIdle (cfg : AlertConfig) (now : ℚ)
    (ts : List String) (s : AlertState) :
    Alert.countEnters cfg now ts s = Alert.countMatchingIdle cfg now ts s := by
  induction ts generalizing s with
  | nil => rfl
  | cons t ts ih =>
      simp only [Alert.countEnters, Alert.countMatchingIdle, ih]
      congr 1
      by_cases hm : t = cfg.alert_state <;> by_cases ht : s.triggered = false <;>
        simp [Alert.watched_triggered_eq, hm, ht]

theorem traceA1_eq :
    traceA1 = ({ triggered := true, ack := false, next_delay := 1,
                 execute_done_script := true, has_cancel := true,
                 pending := some 1, ghost_fired := true },
               ([] : List AlertEvent)) := by
  simp [traceA1, cfgA, Alert.step, Alert.watched_entity_change,
        Alert.begin_alerting, Alert.trigger, Alert.schedule_trigger,
        Alert.initState]

theorem traceA2_eq :
    traceA2 = ({ triggered := true, ack := false, next_delay := 1,
                 execute_done_script := true, has_cancel := true,
                 pending := some 6, ghost_fired := true },
               ([] : List AlertEvent)) := by
  rw [traceA2, traceA1_eq]
  norm_num [cfgA, Alert.step, Alert.trigger, Alert.schedule_trigger]

theorem traceA3_eq :
    traceA3 = ({ triggered := true, ack := false, next_delay := 1,
                 execute_done_script := true, has_cancel := true,
                 pending := some 11, ghost_fired := true },
               ([] : List AlertEvent)) := by
  rw [traceA3, traceA2_eq]
  norm_num [cfgA, Alert.step, Alert.trigger, Alert.schedule_trigger]

theorem traceA4_eq :
    traceA4 = ({ triggered := true, ack := false, next_delay := 1,
                 execute_done_script := true, has_cancel := true,
                 pending := some 16, ghost_fired := true },
               ([] : List AlertEvent)) := by
  rw [traceA4, traceA3_eq]
  norm_num [cfgA, Alert.step, Alert.trigger, Alert.schedule_trigger]

theorem traceAEnd_eq :
    traceAEnd = ({ triggered := false, ack := false, next_delay := 1,
                   execute_done_script := false, has_cancel := true,
                   pending := none, ghost_fired := true },
                 ([] : List AlertEvent)) := by
  rw [traceAEnd, traceA1_eq]
  simp [cfgA, Alert.step, Alert.watched_entity_change, Alert.end_alerting]

theorem traceB1_eq :
    traceB1 = ({ triggered := true, ack := false, next_delay := 0,
                 execute_done_script := false, has_cancel := true,
                 pending := some 10, ghost_fired := false }, []) := by
  simp [traceB1, cfgSkip, Alert.step, Alert.watched_entity_change,
        Alert.begin_alerting, Alert.trigger, Alert.schedule_trigger,
        Alert.initState]

theorem traceB2_eq :
    traceB2 = ({ triggered := true, ack := false, next_delay := 0,
                 execute_done_script := true, has_cancel := true,
                 pending := some 20, ghost_fired := true },
               ([] : List AlertEvent)) := by
  rw [traceB2, traceB1_eq]
  norm_num [cfgSkip, Alert.step, Alert.trigger, Alert.schedule_trigger]

theorem traceB3_eq :
    traceB3 = ({ triggered := true, ack := false, next_delay := 0,
                 execute_done_script := true, has_cancel := true,
                 pending := some 30, ghost_fired := true },
               ([] : List AlertEvent)) := by
  rw [traceB3, traceB2_eq]
  norm_num [cfgSkip, Alert.step, Alert.trigger, Alert.schedule_trigger]

/-- C1 (amended): in every reachable runtime state, being untriggered
implies that no timer is pending; and for every state reachable using
watched-state updates and timer fires only (no acknowledge,
un-acknowledge or toggle operation), being untriggered also implies
that the ack flag is false.  The original claim fails because
`async_turn_off` sets the ack flag unconditionally, even while Idle;
see the counterexample. -/
theorem c1_idle_invariant (cfg : AlertConfig) (s : AlertState) :
    (Alert.Reachable cfg s → s.triggered = false → s.pending = none) ∧
    (Alert.ReachableMonitor cfg s → s.triggered = false →
      s.ack = false ∧ s.pending = none) :=
  ⟨fun hr ht => (Alert.reachable_inv cfg s hr).1 ht,
   fun hr ht => Alert.reachableMonitor_invMon cfg s hr ht⟩

/-- Witness for C1: after entering and then leaving the triggered
state by watched updates, the alert is idle with a cleared ack flag
and no pending timer. -/
theorem c1_idle_invariant_witness :
    traceAEnd.1.ack = false ∧ traceAEnd.1.pending = none :=
  (c1_idle_invariant cfgA traceAEnd.1).2
    (Alert.ReachableMonitor.step 2 (AlertOp.update "off") rfl
      (Alert.ReachableMonitor.step 0 (AlertOp.update "on") rfl
        Alert.ReachableMonitor.init))
    (by simp [traceAEnd_eq])

/-- Counterexample for C1 as stated: acknowledging while idle yields a
reachable state whose triggered flag is false and whose ack flag is
true. -/
theorem c1_counterexample :
    Alert.Reachable cfgA (Alert.step cfgA 0 AlertOp.turnOff Alert.initState).1 ∧
    (Alert.step cfgA 0 AlertOp.turnOff Alert.initState).1.triggered = false ∧
    (Alert.step cfgA 0 AlertOp.turnOff Alert.initState).1.ack = true :=
  ⟨Alert.Reachable.step 0 AlertOp.turnOff Alert.Reachable.init, rfl, rfl⟩

/-- C2 (code bug): a timer fire never executes the triggered script —
the `_execute_script` call at line 248 is not awaited, so its
coroutine is discarded — although every other claimed update happens:
at the failing input (the unacknowledged triggered state of the
concrete trace, fire at time 1) the done-script flag is set, the
cursor is clamped at 1 and the next fire is scheduled at time 6, yet
the list of executed scripts is empty, contrary to the claim that the
triggered action is invoked again. -/
theorem c2_fire_no_invocation :
    (∀ (cfg : AlertConfig) (now : ℚ) (s : AlertState),
        (Alert.trigger cfg now s).2 = []) ∧
    Alert.step cfgA 1 AlertOp.fire traceA1.1 =
      ({ triggered := true, ack := false, next_delay := 1,
         execute_done_script := true, has_cancel := true,
         pending := some 6, ghost_fired := true }, []) :=
  ⟨Alert.trigger_events_nil, traceA2_eq⟩

/-- C3 (code bug): entering the triggered state performs the claimed
flag and scheduling updates — triggered set, ack cleared, cursor reset
so the first timer uses repeatDelays[0], done-script flag set when
skipFirst is false — but the triggered script is never executed at
entry (the `_execute_script` call at line 248 is not awaited): at the
failing input, a matching update at time 0 with skipFirst false, the
list of executed scripts is empty instead of one immediate
invocation; and in the skipFirst example with delays [10] the fire at
time 10 also executes nothing instead of performing the first
invocation. -/
theorem c3_enter_no_invocation :
    (∀ (cfg : AlertConfig) (now : ℚ) (s : AlertState),
        (Alert.begin_alerting cfg now s).2 = []) ∧
    Alert.step cfgA 0 (AlertOp.update "on") Alert.initState =
      ({ triggered := true, ack := false, next_delay := 1,
         execute_done_script := true, has_cancel := true,
         pending := some 1, ghost_fired := true }, []) ∧
    Alert.step cfgSkip 10 AlertOp.fire traceB1.1 =
      ({ triggered := true, ack := false, next_delay := 0,
         execute_done_script := true, has_cancel := true,
         pending := some 20, ghost_fired := true }, []) :=
  ⟨Alert.begin_alerting_events_nil, traceA1_eq, traceB2_eq⟩

/-- C4 (code bug): exiting the triggered state cancels the pending
timer and clears the triggered and ack flags as claimed, and reaches
`_done` exactly when the done-script flag is set, but the done script
is never executed — the `_execute_script` call at line 255 is not
awaited: at the failing input (entry at time 0 with skipFirst false,
then a non-matching update at time 2) the flag was set at entry and
the exit clears it and cancels the timer, yet the list of executed
scripts is empty instead of containing one done invocation. -/
theorem c4_exit_no_done_invocation :
    (∀ s : AlertState, (Alert.end_alerting s).2 = []) ∧
    traceA1.1.execute_done_script = true ∧
    Alert.step cfgA 2 (AlertOp.update "off") traceA1.1 =
      ({ triggered := false, ack := false, next_delay := 1,
         execute_done_script := false, has_cancel := true,
         pending := none, ghost_fired := true }, []) :=
  ⟨Alert.end_alerting_events_nil, by simp [traceA1_eq], traceAEnd_eq⟩

/-- C5 (code bug): on a schema-accepted configuration with one alert
entry, `async_setup` does not construct the alert and complete; it
raises a TypeError at `cfg.get[CONF_TRIGGERED]`, which subscripts the
bound method `dict.get` instead of calling it. -/
theorem c5_setup_raises :
    Alert.async_setup [exampleYaml] =
      Except.error "TypeError: method object is not subscriptable" := rfl

/-- C6 (code bug): the acknowledge operation does only set the ack
flag — every other field, including the pending timer, triggered
flag, cursor and done-script flag, is untouched — and a fire while
acknowledged still schedules the next timer; but there is no action
invocation for acknowledging to suppress or for un-acknowledging to
resume: the `_execute_script` call at line 248 is not awaited, so at
the failing input (acknowledge the concrete triggered state, then
un-acknowledge, then fire at time 1) the fire executes no script,
contrary to the claimed resumption of invocation. -/
theorem c6_ack_frame_no_invocation :
    (∀ s : AlertState, Alert.async_turn_off s =
      { triggered := s.triggered, ack := true, next_delay := s.next_delay,
        execute_done_script := s.execute_done_script,
        has_cancel := s.has_cancel, pending := s.pending,
        ghost_fired := s.ghost_fired }) ∧
    (Alert.trigger cfgA 1 (Alert.async_turn_off traceA1.1)).1.pending =
      some 6 ∧
    (Alert.trigger cfgA 1 (Alert.async_turn_off traceA1.1)).2 = [] ∧
    (Alert.trigger cfgA 1
      (Alert.async_turn_on (Alert.async_turn_off traceA1.1))).2 = [] := by
  refine ⟨fun s => rfl, ?_, Alert.trigger_events_nil cfgA 1 _,
    Alert.trigger_events_nil cfgA 1 _⟩
  rw [Alert.trigger_triggered cfgA 1 (Alert.async_turn_off traceA1.1)
      (by simp [Alert.async_turn_off, traceA1_eq])]
  simp [Alert.async_turn_off, traceA1_eq, cfgA]
  norm_num

/-- C7: a matching update while already triggered and a non-matching
update while idle change nothing, and along every sequence of
watched-state updates the number of enter-triggered transitions equals
the number of matching updates received while not already
triggered. -/
theorem c7_no_reenter (cfg : AlertConfig) (now : ℚ) (t : String)
    (s : AlertState) (ts : List String) :
    (t = cfg.alert_state → s.triggered = true →
      Alert.watched_entity_change cfg now t s = (s, [])) ∧
    (t ≠ cfg.alert_state → s.triggered = false →
      Alert.watched_entity_change cfg now t s = (s, [])) ∧
    Alert.countEnters cfg now ts s = Alert.countMatchingIdle cfg now ts s :=
  ⟨fun hm ht => Alert.watched_match_triggered cfg now t s hm ht,
   fun hm ht => Alert.watched_nomatch_idle cfg now t s hm ht,
   Alert.countEnters_eq_countMatchingIdle cfg now ts s⟩

/-- Witness for C7: a duplicate matching update on the concrete
triggered state changes nothing and emits nothing. -/
theorem c7_no_reenter_witness :
    Alert.watched_entity_change cfgA 3 "on" traceA1.1 = (traceA1.1, []) :=
  (c7_no_reenter cfgA 3 "on" traceA1.1 []).1 rfl (by simp [traceA1_eq])

/-- C8: toggling after acknowledging leaves the alert unacknowledged
and toggling after un-acknowledging leaves it acknowledged, all other
fields untouched; acknowledging twice equals acknowledging once. -/
theorem c8_toggle_inverse (s : AlertState) :
    Alert.async_toggle (Alert.async_turn_off s) = { s with ack := false } ∧
    Alert.async_toggle (Alert.async_turn_on s) = { s with ack := true } ∧
    Alert.async_turn_off (Alert.async_turn_off s) = Alert.async_turn_off s := by
  refine ⟨?_, ?_, rfl⟩ <;>
    simp [Alert.async_toggle, Alert.async_turn_on, Alert.async_turn_off]

/-- C9: the reported status is a pure function of the pair of
triggered and ack flags alone — "on" (firing) when triggered and not
acknowledged, "off" (silenced) when triggered and acknowledged, "idle"
when not triggered — and visibility equals canAcknowledge AND
triggered. -/
theorem c9_state_derived (cfg : AlertConfig) (s : AlertState) :
    Alert.stateStr s = Alert.stateOfFlags s.triggered s.ack ∧
    Alert.stateOfFlags true false = "on" ∧
    Alert.stateOfFlags true true = "off" ∧
    Alert.stateOfFlags false s.ack = "idle" ∧
    (!Alert.hidden cfg s) = (cfg.can_ack && s.triggered) := by
  refine ⟨?_, rfl, rfl, rfl, ?_⟩
  · obtain ⟨tr, ak, nd, ed, hc, pd, gf⟩ := s
    cases tr <;> cases ak <;> rfl
  · simp [Alert.hidden]

set_option linter.unusedVariables false in
/-- C10: with a non-empty repeat-delay list, every reachable state
with the triggered flag set holds a non-None cancel handle, since both
branches of entering the triggered state schedule a timer; hence the
unconditional handle call in `end_alerting` never invokes None. -/
theorem c10_cancel_present (cfg : AlertConfig) (s : AlertState)
    (hne : cfg.delays ≠ []) (hr : Alert.Reachable cfg s)
    (ht : s.triggered = true) : s.has_cancel = true :=
  (Alert.reachable_inv cfg s hr).2.1 ht

/-- Witness for C10: the concrete triggered state reached by one
matching update holds a cancel handle. -/
theorem c10_cancel_present_witness :
    traceA1.1.triggered = true ∧ traceA1.1.has_cancel = true :=
  ⟨by simp [traceA1_eq],
   c10_cancel_present cfgA traceA1.1 (by simp [cfgA])
     (Alert.Reachable.step 0 (AlertOp.update "on") Alert.Reachable.init)
     (by simp [traceA1_eq])⟩
